import Mathlib

/-!
Verification development for the alpine-timeago plugin: a shallow embedding of
the distance formatter (the vendored date-fns `formatDistance` and
`formatDistanceStrict` functions in dist/alpine-timeago.js) and of the live
binding controller (src/index.ts, and the visibility-gated variant
src/index.js), together with theorems settling the specification claims.

Instants are modelled as `Option ℤ` (epoch milliseconds; `none` is an Invalid
Date, i.e. a Date whose time value is NaN).  Fractional intermediate values
are `ℚ`, and the JS rounding functions (`Math.round`, `Math.trunc`,
`Math.floor`, `Math.ceil`) are made explicit.  Host facilities that are not
part of the repository (the local timezone offset table behind
`getTimezoneOffsetInMilliseconds`, the calendar arithmetic behind
`differenceInMonths`, the host `Date` constructor's string parsing, and the
vendored ISO-8601 parser `parseISO`) are supplied as components of an
environment record, so every theorem is quantified over them.
-/

/-- JS `Math.round x`: `⌊x + 1/2⌋` (halves round toward positive infinity). -/
def jsRound (q : ℚ) : ℤ := ⌊q + 1/2⌋

/-- JS `Math.trunc`: rounds toward zero. -/
def jsTrunc (q : ℚ) : ℤ := if 0 ≤ q then ⌊q⌋ else ⌈q⌉

/-- JS `Math.floor`. -/
def jsFloor (q : ℚ) : ℤ := ⌊q⌋

/-- JS `Math.ceil`. -/
def jsCeil (q : ℚ) : ℤ := ⌈q⌉

example : jsRound ((30 : ℚ) / 60) = 1 := by norm_num [jsRound]
example : jsRound ((29 : ℚ) / 60) = 0 := by norm_num [jsRound]
example : jsTrunc ((30000 : ℚ) / 1000) = 30 := by norm_num [jsTrunc]
example : jsRound ((-5 : ℚ) / 2) = -2 := by norm_num [jsRound]
example : jsTrunc ((-7 : ℚ) / 2) = -3 := by norm_num [jsTrunc, Int.ceil_neg, neg_div]

/-- The distance-message token keys of `formatDistanceLocale` in the vendored
en-US locale (dist/alpine-timeago.js). -/
inductive DistToken where
  | lessThanXSeconds
  | xSeconds
  | halfAMinute
  | lessThanXMinutes
  | xMinutes
  | aboutXHours
  | xHours
  | xDays
  | aboutXWeeks
  | xWeeks
  | aboutXMonths
  | xMonths
  | aboutXYears
  | xYears
  | overXYears
  | almostXYears
deriving DecidableEq, Repr

/-- A locale-table entry: either a bare string or a one/other pluralizable
pair of templates. -/
inductive TokenTemplates where
  | str (s : String)
  | pair (one other : String)
deriving DecidableEq, Repr

/-- The `formatDistanceLocale` table of the vendored en-US locale.  The
placeholder braces of the source templates are written with character
escapes. -/
def formatDistanceLocale : DistToken → TokenTemplates
  | .lessThanXSeconds => .pair "less than a second" "less than \x7b\x7bcount\x7d\x7d seconds"
  | .xSeconds => .pair "1 second" "\x7b\x7bcount\x7d\x7d seconds"
  | .halfAMinute => .str "half a minute"
  | .lessThanXMinutes => .pair "less than a minute" "less than \x7b\x7bcount\x7d\x7d minutes"
  | .xMinutes => .pair "1 minute" "\x7b\x7bcount\x7d\x7d minutes"
  | .aboutXHours => .pair "about 1 hour" "about \x7b\x7bcount\x7d\x7d hours"
  | .xHours => .pair "1 hour" "\x7b\x7bcount\x7d\x7d hours"
  | .xDays => .pair "1 day" "\x7b\x7bcount\x7d\x7d days"
  | .aboutXWeeks => .pair "about 1 week" "about \x7b\x7bcount\x7d\x7d weeks"
  | .xWeeks => .pair "1 week" "\x7b\x7bcount\x7d\x7d weeks"
  | .aboutXMonths => .pair "about 1 month" "about \x7b\x7bcount\x7d\x7d months"
  | .xMonths => .pair "1 month" "\x7b\x7bcount\x7d\x7d months"
  | .aboutXYears => .pair "about 1 year" "about \x7b\x7bcount\x7d\x7d years"
  | .xYears => .pair "1 year" "\x7b\x7bcount\x7d\x7d years"
  | .overXYears => .pair "over 1 year" "over \x7b\x7bcount\x7d\x7d years"
  | .almostXYears => .pair "almost 1 year" "almost \x7b\x7bcount\x7d\x7d years"

/-- JS `String.prototype.replace` with a string pattern: replaces the first
occurrence of `pat` (here always nonempty) by `rep`; returns the input
unchanged when there is no occurrence. -/
def replaceFirstAux (pat rep : List Char) : List Char → List Char
  | [] => []
  | c :: rest =>
    if pat.isPrefixOf (c :: rest) then rep ++ (c :: rest).drop pat.length
    else c :: replaceFirstAux pat rep rest

/-- String-level wrapper for `replaceFirstAux`. -/
def jsReplaceFirst (s pat rep : String) : String :=
  String.mk (replaceFirstAux pat.toList rep.toList s.toList)

/-- The en-US `formatDistance` localizer (named `formatDistance$1` in the
bundle): pick the template, pluralize on `count === 1`, substitute
`count.toString()`, and wrap with the "ago" / "in" suffix when
`addSuffix` is set, keyed on the sign `comparison` (suffix "ago" when
`comparison ≤ 0`, prefix "in" when `comparison > 0`). -/
def localeFormatDistance (token : DistToken) (count : ℤ) (addSuffix : Bool)
    (comparison : ℤ) : String :=
  let result : String :=
    match formatDistanceLocale token with
    | .str s => s
    | .pair one other =>
      if count = 1 then one
      else jsReplaceFirst other "\x7b\x7bcount\x7d\x7d" (toString count)
  if addSuffix then
    if comparison > 0 then "in " ++ result else result ++ " ago"
  else result

example : localeFormatDistance .xMinutes 3 false 0 = "3 minutes" := by decide
example : localeFormatDistance .xMinutes 1 true 1 = "in 1 minute" := by decide
example : localeFormatDistance .aboutXHours 5 true 0 = "about 5 hours ago" := by decide
example : localeFormatDistance .halfAMinute 0 false 0 = "half a minute" := by decide

/-- The ECMA-262 `maxTime`: the largest epoch-millisecond magnitude a Date can
hold; a numeric timestamp beyond it yields an Invalid Date. -/
def maxTime : ℤ := 8640000000000000

/-- Host environment: the facilities the plugin and the vendored date-fns use
that live outside the repository.  `off t` is
`getTimezoneOffsetInMilliseconds` at epoch-ms `t`; `diffMonths hi lo` is
`differenceInMonths(hi, lo)` (calendar full months, local time);
`hostParse` is the host `Date` constructor's string parsing (ECMA-262, used
by `constructFrom`'s `new Date(value)` fallback); `isoParse` is the vendored
`parseISO` (returns Invalid Date, i.e. `none`, on failure); `now` is
`Date.now()`. -/
structure Env where
  now : ℤ
  off : ℤ → ℤ
  diffMonths : ℤ → ℤ → ℤ
  hostParse : String → Option ℤ
  isoParse : String → Option ℤ

/-- A JS value reaching the formatter: a number (timestamp), a Date object
(`none` = Invalid Date), or a string. -/
inductive JSVal where
  | num (n : ℤ)
  | date (d : Option ℤ)
  | str (s : String)
deriving DecidableEq

/-- Embedding of `toDate` / `constructFrom` of the vendored date-fns: a Date passes
through, a number is a timestamp (Invalid when out of range), and any other
value falls to `new Date(value)`, so a string goes through the host Date
parser. -/
def toDate (env : Env) : JSVal → Option ℤ
  | .num n => if n.natAbs ≤ maxTime.natAbs then some n else none
  | .date d => d
  | .str s => env.hostParse s

/-- Embedding of `compareAsc`: sign of the difference of the two time values; `none` when
either is NaN. -/
def compareAsc (a b : Option ℤ) : Option ℤ :=
  match a, b with
  | some x, some y => some (if x - y < 0 then -1 else if x - y > 0 then 1 else 0)
  | _, _ => none

/-- The later/earlier normalization both formatters perform: with
`comparison > 0` the argument pair is swapped, so `laterDate_` is always the
smaller time value and `earlierDate_` the larger. -/
def sortPair (x y : ℤ) : ℤ × ℤ := if x - y > 0 then (y, x) else (x, y)

/-- Embedding of `differenceInSeconds(hi, lo)`: millisecond difference divided by 1000 and
truncated (the default rounding method of `getRoundingMethod`). -/
def differenceInSeconds (hi lo : ℤ) : ℤ := jsTrunc ((hi - lo : ℤ) / (1000 : ℚ))

/-- The approximate formatter's minute count: rounded after subtracting the
UTC-offset difference (DST-safe correction) from the truncated second
count. -/
def approxMinutes (env : Env) (lo hi : ℤ) : ℤ :=
  let seconds : ℤ := differenceInSeconds hi lo
  let offsetInSeconds : ℚ := ((env.off hi - env.off lo : ℤ) : ℚ) / 1000
  jsRound (((seconds : ℚ) - offsetInSeconds) / 60)

/-- The threshold ladder of `formatDistance` (approximate mode), selecting a
token and count from the truncated second count, the rounded DST-corrected
minute count, and (only beyond 86400 minutes) the calendar month
difference. -/
def approxLadder (seconds minutes : ℤ) (includeSeconds : Bool) (months : ℤ) :
    DistToken × ℤ :=
  if minutes < 2 then
    if includeSeconds then
      if seconds < 5 then (.lessThanXSeconds, 5)
      else if seconds < 10 then (.lessThanXSeconds, 10)
      else if seconds < 20 then (.lessThanXSeconds, 20)
      else if seconds < 40 then (.halfAMinute, 0)
      else if seconds < 60 then (.lessThanXMinutes, 1)
      else (.xMinutes, 1)
    else
      if minutes = 0 then (.lessThanXMinutes, 1)
      else (.xMinutes, minutes)
  else if minutes < 45 then (.xMinutes, minutes)
  else if minutes < 90 then (.aboutXHours, 1)
  else if minutes < 1440 then (.aboutXHours, jsRound ((minutes : ℚ) / 60))
  else if minutes < 2520 then (.xDays, 1)
  else if minutes < 43200 then (.xDays, jsRound ((minutes : ℚ) / 1440))
  else if minutes < 86400 then (.aboutXMonths, jsRound ((minutes : ℚ) / 43200))
  else
    if months < 12 then (.xMonths, jsRound ((minutes : ℚ) / 43200))
    else
      let monthsSinceStartOfYear := months % 12
      let years := months / 12
      if monthsSinceStartOfYear < 3 then (.aboutXYears, years)
      else if monthsSinceStartOfYear < 9 then (.overXYears, years)
      else (.almostXYears, years + 1)

/-- Options of `formatDistance` (approximate mode). -/
structure FormatDistanceOptions where
  addSuffix : Bool := false
  includeSeconds : Bool := false
deriving DecidableEq

/-- The body of `formatDistance` once both dates are known valid: normalize
the pair, compute seconds and DST-corrected minutes, run the ladder, and
localize (the direction sign `comparison` was captured before the swap). -/
def formatDistanceCore (env : Env) (x y : ℤ) (opts : FormatDistanceOptions) :
    String :=
  let comparison : ℤ := if x - y < 0 then -1 else if x - y > 0 then 1 else 0
  let p := sortPair x y
  let lo := p.1
  let hi := p.2
  let seconds := differenceInSeconds hi lo
  let minutes := approxMinutes env lo hi
  let tc := approxLadder seconds minutes opts.includeSeconds (env.diffMonths hi lo)
  localeFormatDistance tc.1 tc.2 opts.addSuffix comparison

/-- Embedding of `formatDistance(laterDate, earlierDate, options)` of the vendored
date-fns: throws `RangeError("Invalid time value")` exactly when
`compareAsc` is NaN, i.e. when either input fails to convert to a valid
Date. -/
def formatDistance (env : Env) (laterDate earlierDate : JSVal)
    (opts : FormatDistanceOptions) : Except String String :=
  match toDate env laterDate, toDate env earlierDate with
  | some x, some y => .ok (formatDistanceCore env x y opts)
  | _, _ => .error "Invalid time value"

/-- The strict units. -/
inductive StrictUnit where
  | second
  | minute
  | hour
  | day
  | month
  | year
deriving DecidableEq, Repr

/-- The strict rounding-method option tokens. -/
inductive RoundingMethod where
  | floor
  | ceil
  | round
deriving DecidableEq, Repr

/-- Embedding of `getRoundingMethod`: maps the method name to the `Math` function,
`Math.trunc` when absent (the negative-zero normalization is a no-op on
`ℤ`). -/
def getRoundingMethod : Option RoundingMethod → ℚ → ℤ
  | some .floor => jsFloor
  | some .ceil => jsCeil
  | some .round => jsRound
  | none => jsTrunc

/-- Options of `formatDistanceStrict`. -/
structure StrictOptions where
  addSuffix : Bool := false
  unit : Option StrictUnit := none
  roundingMethod : Option RoundingMethod := none
deriving DecidableEq

/-- Raw minute delta of the strict formatter: `milliseconds / 60000`. -/
def rawMinutes (lo hi : ℤ) : ℚ := ((hi - lo : ℤ) : ℚ) / 60000

/-- DST-normalized minute delta of the strict formatter:
`(milliseconds - timezoneOffset) / 60000` with `timezoneOffset` the
difference of the two UTC offsets. -/
def dstMinutes (env : Env) (lo hi : ℤ) : ℚ :=
  (((hi - lo) - (env.off hi - env.off lo) : ℤ) : ℚ) / 60000

/-- The strict formatter's unit auto-selection: raw minutes for second,
minute and hour; DST-normalized minutes for day, month and year. -/
def strictAutoUnit (env : Env) (lo hi : ℤ) : StrictUnit :=
  if rawMinutes lo hi < 1 then .second
  else if rawMinutes lo hi < 60 then .minute
  else if rawMinutes lo hi < 1440 then .hour
  else if dstMinutes env lo hi < 43200 then .day
  else if dstMinutes env lo hi < 525600 then .month
  else .year

/-- The body of `formatDistanceStrict` once both dates are known valid:
normalize the pair, pick the rounding method (default `"round"`), force or
auto-select the unit, and render the rounded magnitude — re-expressed as
`xYears 1` when a non-forced month unit rounds to exactly 12 months. -/
def formatDistanceStrictCore (env : Env) (x y : ℤ) (opts : StrictOptions) :
    String :=
  let comparison : ℤ := if x - y < 0 then -1 else if x - y > 0 then 1 else 0
  let p := sortPair x y
  let lo := p.1
  let hi := p.2
  let rm := getRoundingMethod (some (opts.roundingMethod.getD .round))
  let milliseconds : ℤ := hi - lo
  let unit := (opts.unit).getD (strictAutoUnit env lo hi)
  match unit with
  | .second =>
    localeFormatDistance .xSeconds (rm ((milliseconds : ℚ) / 1000))
      opts.addSuffix comparison
  | .minute =>
    localeFormatDistance .xMinutes (rm (rawMinutes lo hi))
      opts.addSuffix comparison
  | .hour =>
    localeFormatDistance .xHours (rm (rawMinutes lo hi / 60))
      opts.addSuffix comparison
  | .day =>
    localeFormatDistance .xDays (rm (dstMinutes env lo hi / 1440))
      opts.addSuffix comparison
  | .month =>
    let months := rm (dstMinutes env lo hi / 43200)
    if months = 12 ∧ opts.unit ≠ some .month then
      localeFormatDistance .xYears 1 opts.addSuffix comparison
    else
      localeFormatDistance .xMonths months opts.addSuffix comparison
  | .year =>
    localeFormatDistance .xYears (rm (dstMinutes env lo hi / 525600))
      opts.addSuffix comparison

/-- Embedding of `formatDistanceStrict(laterDate, earlierDate, options)` of the vendored
date-fns. -/
def formatDistanceStrict (env : Env) (laterDate earlierDate : JSVal)
    (opts : StrictOptions) : Except String String :=
  match toDate env laterDate, toDate env earlierDate with
  | some x, some y => .ok (formatDistanceStrictCore env x y opts)
  | _, _ => .error "Invalid time value"

/-- Embedding of `formatDistanceToNow(date, options)`: distance between `date` and
`constructNow(date)` (`Date.now()`). -/
def formatDistanceToNow (env : Env) (date : JSVal)
    (opts : FormatDistanceOptions) : Except String String :=
  formatDistance env date (.date (some env.now)) opts

/-- Embedding of `formatDistanceToNowStrict(date, options)`. -/
def formatDistanceToNowStrict (env : Env) (date : JSVal)
    (opts : StrictOptions) : Except String String :=
  formatDistanceStrict env date (.date (some env.now)) opts

/-- The modifier-list lookup
`modifiers[modifiers.findIndex(m => m === key) + 1] || undefined`: the token
immediately after the first occurrence of `key`, with an empty string
(falsy) collapsing to `undefined`.  Only consulted under
`modifiers.includes(key)`. -/
def modifierValueAfter (modifiers : List String) (key : String) :
    Option String :=
  match modifiers.get? (modifiers.findIdx (· == key) + 1) with
  | some v => if v = "" then none else some v
  | none => none

/-- The directive's strict `unit` sub-modifier: the token after `"unit"`,
validated against the six recognized names, `undefined` otherwise (the TS
switch statement and the JS `includes` check are equivalent). -/
def unitModifier (modifiers : List String) : Option StrictUnit :=
  if modifiers.contains "unit" then
    match modifierValueAfter modifiers "unit" with
    | some "second" => some .second
    | some "minute" => some .minute
    | some "hour" => some .hour
    | some "day" => some .day
    | some "month" => some .month
    | some "year" => some .year
    | _ => none
  else none

/-- The directive's strict `rounding` sub-modifier, validated against the
three recognized names. -/
def roundingModifier (modifiers : List String) : Option RoundingMethod :=
  if modifiers.contains "rounding" then
    match modifierValueAfter modifiers "rounding" with
    | some "floor" => some .floor
    | some "ceil" => some .ceil
    | some "round" => some .round
    | _ => none
  else none

/-- Observable per-element controller state: the element's text content and
the `console.error` diagnostic log. -/
structure CtrlState where
  textContent : String
  log : List String
deriving DecidableEq

/-- The `render` closure of the directive in src/index.ts: format the
(already parsed) date — strict or approximate according to the modifiers —
assign `el.textContent` on success, and on error catch it and
`console.error` it, leaving the text content untouched. -/
def renderTS (env : Env) (modifiers : List String) (c : CtrlState)
    (date : Option ℤ) : CtrlState :=
  let res : Except String String :=
    if modifiers.contains "strict" then
      formatDistanceToNowStrict env (.date date)
        { addSuffix := !modifiers.contains "pure"
          unit := unitModifier modifiers
          roundingMethod := roundingModifier modifiers }
    else
      formatDistanceToNow env (.date date)
        { addSuffix := !modifiers.contains "pure"
          includeSeconds := modifiers.contains "seconds" }
  match res with
  | .ok t => { c with textContent := t }
  | .error e => { c with log := c.log ++ [e] }

/-- A live repeating timer of the host: its `setInterval` id, its period in
milliseconds, and the parsed date the interval callback captured. -/
structure Timer where
  id : ℕ
  period : ℤ
  date : Option ℤ
deriving DecidableEq

/-- The state of one binding of the src/index.ts directive plus the host
timer table: the controller's `interval` variable, the element state, the
set of live host timers, and the id counter of the host's `setInterval`. -/
structure Sys where
  ctrl : CtrlState
  interval : Option ℕ
  timers : List Timer
  nextId : ℕ
deriving DecidableEq

/-- The directive's expression resolution (src/index.ts effect body):
`typeof date === 'string' ? parseISO(date) : date`; numbers and Date
objects pass through `render`'s `number | Date` signature unchanged. -/
def resolveValue (env : Env) : JSVal → Option ℤ
  | .str s => env.isoParse s
  | .num n => if n.natAbs ≤ maxTime.natAbs then some n else none
  | .date d => d

/-- One run of the reactive effect callback of src/index.ts on current bound
value `v`: clear any pending interval, resolve the value (strings through
`parseISO`), render immediately, then arm a new interval of 30000 ms
(5000 ms with the `seconds` modifier) whose callback renders the same
parsed date. -/
def onEffect (env : Env) (modifiers : List String) (s : Sys) (v : JSVal) :
    Sys :=
  let s₁ : Sys :=
    match s.interval with
    | some tid => { s with timers := s.timers.filter (fun t => t.id ≠ tid) }
    | none => s
  let parsedDate := resolveValue env v
  let s₂ : Sys := { s₁ with ctrl := renderTS env modifiers s₁.ctrl parsedDate }
  let intervalDuration : ℤ := if modifiers.contains "seconds" then 5000 else 30000
  { s₂ with
    interval := some s₂.nextId
    timers := s₂.timers ++ [⟨s₂.nextId, intervalDuration, parsedDate⟩]
    nextId := s₂.nextId + 1 }

/-- A host timer tick for id `tid`: fires only if a live timer with that id
exists, in which case the interval callback renders the captured date. -/
def onTick (env : Env) (modifiers : List String) (s : Sys) (tid : ℕ) : Sys :=
  match s.timers.find? (fun t => t.id = tid) with
  | some t => { s with ctrl := renderTS env modifiers s.ctrl t.date }
  | none => s

/-- Well-formedness of a binding's timer state: every live timer is the one
the controller's `interval` variable holds, there is at most one, and all
ids (live or stored) are below the host's id counter. -/
def SysInv (s : Sys) : Prop :=
  (∀ t ∈ s.timers, s.interval = some t.id ∧ t.id < s.nextId) ∧
  s.timers.length ≤ 1 ∧
  (s.interval = none ∨ ∃ tid, s.interval = some tid ∧ tid < s.nextId)

/-- Embedding of `isPast(date)`: `+toDate(date) < Date.now()` (false on NaN). -/
def isPast (env : Env) (date : JSVal) : Bool :=
  match toDate env date with
  | some t => t < env.now
  | none => false

/-- A live timer of the visibility-gated variant: its `setInterval` callback
captures the raw evaluated value (`render` re-parses it each tick). -/
structure VTimer where
  id : ℕ
  period : ℤ
  date : JSVal
deriving DecidableEq

/-- The state of one binding of the src/index.js (visibility-gated, event
emitting) directive variant: element text, diagnostic log, the list of
emitted `timeago:render` event payloads (`isPast`), a count of `render`
invocations, the `interval` variable, the live host timers and the host id
counter. -/
structure VSys where
  textContent : String
  log : List String
  events : List Bool
  renders : ℕ
  interval : Option ℕ
  timers : List VTimer
  nextId : ℕ
deriving DecidableEq

/-- The `render` closure of src/index.js: parse a string value with
`parseISO`, format per the modifiers, assign the text content and dispatch
a non-bubbling `timeago:render` event carrying `isPast` on success, catch
and log the error otherwise. -/
def renderApply (s : VSys) (past : Bool) : Except String String → VSys
  | .ok t =>
    { s with
      textContent := t
      events := s.events ++ [past]
      renders := s.renders + 1 }
  | .error e => { s with log := s.log ++ [e], renders := s.renders + 1 }

def renderJS (env : Env) (modifiers : List String) (s : VSys) (v : JSVal) :
    VSys :=
  let date : JSVal := match v with
    | .str str => .date (env.isoParse str)
    | other => other
  let res : Except String String :=
    if modifiers.contains "strict" then
      formatDistanceToNowStrict env date
        { addSuffix := !modifiers.contains "pure"
          unit := unitModifier modifiers
          roundingMethod := roundingModifier modifiers }
    else
      formatDistanceToNow env date
        { addSuffix := !modifiers.contains "pure"
          includeSeconds := modifiers.contains "seconds" }
  renderApply s (isPast env date) res

/-- Embedding of `setupInterval(date)` of src/index.js: arm a repeating timer of 30000 ms
(5000 ms with the `seconds` modifier) capturing the raw value, and store its
id in `interval`. -/
def setupIntervalJS (modifiers : List String) (s : VSys) (v : JSVal) : VSys :=
  let intervalDuration : ℤ := if modifiers.contains "seconds" then 5000 else 30000
  { s with
    interval := some s.nextId
    timers := s.timers ++ [⟨s.nextId, intervalDuration, v⟩]
    nextId := s.nextId + 1 }

/-- The `IntersectionObserver` callback of src/index.js on current bound
value `v`: on becoming visible, if no interval is live, arm one and render
once immediately; on leaving the viewport, clear the interval and forget
it. -/
def onIntersection (env : Env) (modifiers : List String) (s : VSys)
    (isIntersecting : Bool) (v : JSVal) : VSys :=
  if isIntersecting then
    match s.interval with
    | some _ => s
    | none => renderJS env modifiers (setupIntervalJS modifiers s v) v
  else
    match s.interval with
    | some tid =>
      { s with timers := s.timers.filter (fun t => t.id ≠ tid), interval := none }
    | none => s

/-- A host timer tick in the visibility-gated variant. -/
def onTickJS (env : Env) (modifiers : List String) (s : VSys) (tid : ℕ) :
    VSys :=
  match s.timers.find? (fun t => t.id = tid) with
  | some t => renderJS env modifiers s t.date
  | none => s

/-- Well-formedness of the visibility-gated binding's timer state. -/
def VSysInv (s : VSys) : Prop :=
  (∀ t ∈ s.timers, s.interval = some t.id ∧ t.id < s.nextId) ∧
  s.timers.length ≤ 1 ∧
  (s.interval = none → s.timers = [])

/-- A locale object as the `configure` call sees it: whether it has a
`formatDistance` member, plus an identity so that distinct locales can be
told apart. -/
structure LocaleObj where
  hasFormatDistance : Bool
  ident : ℕ
deriving DecidableEq

/-- The value `configure` returns: the plugin registration function
(`TimeAgo` itself), enabling chaining. -/
inductive ConfigureResult where
  | timeAgoFn
deriving DecidableEq

/-- Embedding of `TimeAgo.configure` of src/index.ts: `if (config.locale) locale =
config.locale` — any provided locale object (truthy) replaces the
module-level locale, with no shape validation — then `return TimeAgo`. -/
def configureTS (configLocale : Option LocaleObj) (locale : Option LocaleObj) :
    Option LocaleObj × ConfigureResult :=
  match configLocale with
  | some l => (some l, .timeAgoFn)
  | none => (locale, .timeAgoFn)

/-- Embedding of `TimeAgo.configure` of src/index.js (same code in unnamed/part_002 and
the dist bundle): the locale is replaced only when the config owns a
`locale` object and that object owns a `formatDistance` member; otherwise
the previous locale is retained; `TimeAgo` is returned in all cases. -/
def configureJS (configLocale : Option LocaleObj) (locale : Option LocaleObj) :
    Option LocaleObj × ConfigureResult :=
  match configLocale with
  | some l => if l.hasFormatDistance then (some l, .timeAgoFn) else (locale, .timeAgoFn)
  | none => (locale, .timeAgoFn)

/-- The `strictOptions` argument of the `$timeago` magic:
`{ strict: bool, unit?, roundingMethod? }`. -/
structure MagicStrictOptions where
  strict : Bool := false
  unit : Option StrictUnit := none
  roundingMethod : Option RoundingMethod := none
deriving DecidableEq

/-- The `$timeago` magic of src/index.ts: default `pure` and `seconds` to
`false` when nullish, and pass `expression` directly — with no `parseISO`
call — to `formatDistanceToNowStrict` when `strictOptions` is provided and
its `strict` member is truthy, to `formatDistanceToNow` otherwise. -/
def magicTimeago (env : Env) (expression : JSVal) (pure? seconds? : Option Bool)
    (strictOptions : Option MagicStrictOptions) : Except String String :=
  let pureV := pure?.getD false
  let secondsV := seconds?.getD false
  if (strictOptions.map (·.strict)).getD false then
    formatDistanceToNowStrict env expression
      { addSuffix := !pureV
        unit := (strictOptions.map (·.unit)).getD none
        roundingMethod := (strictOptions.map (·.roundingMethod)).getD none }
  else
    formatDistanceToNow env expression
      { addSuffix := !pureV, includeSeconds := secondsV }

/-! ## Helper lemmas -/

lemma locale_noSuffix (t : DistToken) (c cmp cmp' : ℤ) :
    localeFormatDistance t c false cmp = localeFormatDistance t c false cmp' := by
  simp [localeFormatDistance]

lemma locale_xMinutes_plural (c : ℤ) (h : c ≠ 1) (cmp : ℤ) :
    localeFormatDistance .xMinutes c false cmp = toString c ++ " minutes" := by
  unfold localeFormatDistance formatDistanceLocale
  simp only [if_neg h]
  rfl

lemma locale_aboutXHours_plural (c : ℤ) (h : c ≠ 1) (cmp : ℤ) :
    localeFormatDistance .aboutXHours c false cmp = "about " ++ toString c ++ " hours" := by
  unfold localeFormatDistance formatDistanceLocale
  simp only [if_neg h]
  rfl

lemma locale_xDays_plural (c : ℤ) (h : c ≠ 1) (cmp : ℤ) :
    localeFormatDistance .xDays c false cmp = toString c ++ " days" := by
  unfold localeFormatDistance formatDistanceLocale
  simp only [if_neg h]
  rfl

lemma locale_xSeconds_plural (c : ℤ) (h : c ≠ 1) (cmp : ℤ) :
    localeFormatDistance .xSeconds c false cmp = toString c ++ " seconds" := by
  unfold localeFormatDistance formatDistanceLocale
  simp only [if_neg h]
  rfl

lemma locale_xHours_plural (c : ℤ) (h : c ≠ 1) (cmp : ℤ) :
    localeFormatDistance .xHours c false cmp = toString c ++ " hours" := by
  unfold localeFormatDistance formatDistanceLocale
  simp only [if_neg h]
  rfl

lemma locale_xMonths_plural (c : ℤ) (h : c ≠ 1) (cmp : ℤ) :
    localeFormatDistance .xMonths c false cmp = toString c ++ " months" := by
  unfold localeFormatDistance formatDistanceLocale
  simp only [if_neg h]
  rfl

lemma locale_xYears_plural (c : ℤ) (h : c ≠ 1) (cmp : ℤ) :
    localeFormatDistance .xYears c false cmp = toString c ++ " years" := by
  unfold localeFormatDistance formatDistanceLocale
  simp only [if_neg h]
  rfl

/-- Evaluation of `formatDistance` on two valid Date objects runs the core. -/
lemma formatDistance_valid (env : Env) (x y : ℤ) (opts : FormatDistanceOptions) :
    formatDistance env (.date (some x)) (.date (some y)) opts =
      .ok (formatDistanceCore env x y opts) := rfl

lemma formatDistanceStrict_valid (env : Env) (x y : ℤ) (opts : StrictOptions) :
    formatDistanceStrict env (.date (some x)) (.date (some y)) opts =
      .ok (formatDistanceStrictCore env x y opts) := rfl

/-- The DST-corrected rounded minute count of the approximate formatter, as a
function of the raw argument pair. -/
def approxMinutesOf (env : Env) (x y : ℤ) : ℤ :=
  approxMinutes env (sortPair x y).1 (sortPair x y).2

/-- With `addSuffix = false` the approximate core is the localized ladder
output (the direction sign is irrelevant). -/
lemma fd_core_noSuffix (env : Env) (x y : ℤ) (opts : FormatDistanceOptions)
    (h : opts.addSuffix = false) :
    formatDistanceCore env x y opts =
      localeFormatDistance
        (approxLadder (differenceInSeconds (sortPair x y).2 (sortPair x y).1)
          (approxMinutesOf env x y) opts.includeSeconds
          (env.diffMonths (sortPair x y).2 (sortPair x y).1)).1
        (approxLadder (differenceInSeconds (sortPair x y).2 (sortPair x y).1)
          (approxMinutesOf env x y) opts.includeSeconds
          (env.diffMonths (sortPair x y).2 (sortPair x y).1)).2
        false 0 := by
  unfold formatDistanceCore approxMinutesOf
  rw [h]
  exact locale_noSuffix _ _ _ _

lemma ladder_min0 (s mo : ℤ) : approxLadder s 0 false mo = (.lessThanXMinutes, 1) := by
  unfold approxLadder
  norm_num

lemma ladder_min1 (s mo : ℤ) : approxLadder s 1 false mo = (.xMinutes, 1) := by
  unfold approxLadder
  norm_num

lemma ladder_2_45 (s m mo : ℤ) (h1 : 2 ≤ m) (h2 : m < 45) :
    approxLadder s m false mo = (.xMinutes, m) := by
  unfold approxLadder
  rw [if_neg (by omega), if_pos (by omega)]

lemma ladder_45_90 (s m mo : ℤ) (h1 : 45 ≤ m) (h2 : m < 90) :
    approxLadder s m false mo = (.aboutXHours, 1) := by
  unfold approxLadder
  rw [if_neg (by omega), if_neg (by omega), if_pos (by omega)]

lemma ladder_90_1440 (s m mo : ℤ) (h1 : 90 ≤ m) (h2 : m < 1440) :
    approxLadder s m false mo = (.aboutXHours, jsRound ((m : ℚ) / 60)) := by
  unfold approxLadder
  rw [if_neg (by omega), if_neg (by omega), if_neg (by omega), if_pos (by omega)]

lemma ladder_1440_2520 (s m mo : ℤ) (h1 : 1440 ≤ m) (h2 : m < 2520) :
    approxLadder s m false mo = (.xDays, 1) := by
  unfold approxLadder
  rw [if_neg (by omega), if_neg (by omega), if_neg (by omega), if_neg (by omega),
    if_pos (by omega)]

lemma ladder_2520_43200 (s m mo : ℤ) (h1 : 2520 ≤ m) (h2 : m < 43200) :
    approxLadder s m false mo = (.xDays, jsRound ((m : ℚ) / 1440)) := by
  unfold approxLadder
  rw [if_neg (by omega), if_neg (by omega), if_neg (by omega), if_neg (by omega),
    if_neg (by omega), if_pos (by omega)]

lemma ladder_43200_86400 (s m mo : ℤ) (h1 : 43200 ≤ m) (h2 : m < 86400) :
    approxLadder s m false mo = (.aboutXMonths, jsRound ((m : ℚ) / 43200)) := by
  unfold approxLadder
  rw [if_neg (by omega), if_neg (by omega), if_neg (by omega), if_neg (by omega),
    if_neg (by omega), if_neg (by omega), if_pos (by omega)]

lemma round_div60_ge_2 (m : ℤ) (h : 90 ≤ m) : 2 ≤ jsRound ((m : ℚ) / 60) := by
  unfold jsRound
  rw [Int.le_floor]
  have : (90 : ℚ) ≤ (m : ℚ) := by exact_mod_cast h
  push_cast
  linarith

lemma round_div1440_ge_2 (m : ℤ) (h : 2520 ≤ m) : 2 ≤ jsRound ((m : ℚ) / 1440) := by
  unfold jsRound
  rw [Int.le_floor]
  have : (2520 : ℚ) ≤ (m : ℚ) := by exact_mod_cast h
  push_cast
  linarith

/-- Orientation facts about `sortPair`. -/
lemma sortPair_delta (x y d : ℤ) (hd : 0 < d) (h : x - y = d ∨ y - x = d) :
    (sortPair x y).2 - (sortPair x y).1 = d ∧
      ((sortPair x y).1 = x ∧ (sortPair x y).2 = y ∨
        (sortPair x y).1 = y ∧ (sortPair x y).2 = x) := by
  unfold sortPair
  rcases h with h | h
  · rw [if_pos (by omega)]
    exact ⟨by omega, Or.inr ⟨rfl, rfl⟩⟩
  · rw [if_neg (by omega)]
    exact ⟨by omega, Or.inl ⟨rfl, rfl⟩⟩

lemma approxMinutes_delta30 (env : Env) (lo hi : ℤ) (hd : hi - lo = 30000)
    (hoff : env.off hi = env.off lo) : approxMinutes env lo hi = 1 := by
  unfold approxMinutes differenceInSeconds
  rw [hd, hoff, sub_self]
  norm_num [jsTrunc, jsRound]

lemma approxMinutes_delta29 (env : Env) (lo hi : ℤ) (hd : hi - lo = 29000)
    (hoff : env.off hi = env.off lo) : approxMinutes env lo hi = 0 := by
  unfold approxMinutes differenceInSeconds
  rw [hd, hoff, sub_self]
  norm_num [jsTrunc, jsRound]

/-! ## Claim theorems -/

/-- C1: with `includeSeconds = false` (and no suffix) the approximate
formatter computes the rounded DST-corrected minute count and selects the
message by the fixed ladder — 0 minutes "less than a minute", 1 "1 minute",
2–44 "n minutes", 45–89 "about 1 hour", 90–1439 "about round(min/60)
hours", 1440–2519 "1 day", 2520–43199 "round(min/1440) days", 43200–86399
"about round(min/43200) months" — with thresholds half-open on the lower
bound over the already-rounded count; and a raw delta of exactly 30 seconds
renders "1 minute" while 29 seconds renders "less than a minute". -/
theorem claim_C1 (env : Env) (x y : ℤ) (opts : FormatDistanceOptions)
    (hsec : opts.includeSeconds = false) (hsuf : opts.addSuffix = false) :
    (approxMinutesOf env x y = 0 →
      formatDistance env (.date (some x)) (.date (some y)) opts =
        .ok "less than a minute") ∧
    (approxMinutesOf env x y = 1 →
      formatDistance env (.date (some x)) (.date (some y)) opts =
        .ok "1 minute") ∧
    (2 ≤ approxMinutesOf env x y → approxMinutesOf env x y < 45 →
      formatDistance env (.date (some x)) (.date (some y)) opts =
        .ok (toString (approxMinutesOf env x y) ++ " minutes")) ∧
    (45 ≤ approxMinutesOf env x y → approxMinutesOf env x y < 90 →
      formatDistance env (.date (some x)) (.date (some y)) opts =
        .ok "about 1 hour") ∧
    (90 ≤ approxMinutesOf env x y → approxMinutesOf env x y < 1440 →
      formatDistance env (.date (some x)) (.date (some y)) opts =
        .ok ("about " ++ toString (jsRound ((approxMinutesOf env x y : ℚ) / 60)) ++
          " hours")) ∧
    (1440 ≤ approxMinutesOf env x y → approxMinutesOf env x y < 2520 →
      formatDistance env (.date (some x)) (.date (some y)) opts = .ok "1 day") ∧
    (2520 ≤ approxMinutesOf env x y → approxMinutesOf env x y < 43200 →
      formatDistance env (.date (some x)) (.date (some y)) opts =
        .ok (toString (jsRound ((approxMinutesOf env x y : ℚ) / 1440)) ++ " days")) ∧
    (43200 ≤ approxMinutesOf env x y → approxMinutesOf env x y < 86400 →
      formatDistance env (.date (some x)) (.date (some y)) opts =
        .ok (localeFormatDistance .aboutXMonths
          (jsRound ((approxMinutesOf env x y : ℚ) / 43200)) false 0)) ∧
    ((x - y = 30000 ∨ y - x = 30000) → env.off x = env.off y →
      formatDistance env (.date (some x)) (.date (some y)) opts =
        .ok "1 minute") ∧
    ((x - y = 29000 ∨ y - x = 29000) → env.off x = env.off y →
      formatDistance env (.date (some x)) (.date (some y)) opts =
        .ok "less than a minute") := by
  have base : ∀ t c,
      approxLadder (differenceInSeconds (sortPair x y).2 (sortPair x y).1)
        (approxMinutesOf env x y) false
        (env.diffMonths (sortPair x y).2 (sortPair x y).1) = (t, c) →
      formatDistance env (.date (some x)) (.date (some y)) opts =
        .ok (localeFormatDistance t c false 0) := by
    intro t c h
    rw [formatDistance_valid, fd_core_noSuffix env x y opts hsuf, hsec, h]
  have case0 : approxMinutesOf env x y = 0 →
      formatDistance env (.date (some x)) (.date (some y)) opts =
        .ok "less than a minute" := by
    intro h0
    rw [h0] at base
    rw [base _ _ (ladder_min0 _ _)]
    rfl
  have case1 : approxMinutesOf env x y = 1 →
      formatDistance env (.date (some x)) (.date (some y)) opts =
        .ok "1 minute" := by
    intro h1
    rw [h1] at base
    rw [base _ _ (ladder_min1 _ _)]
    rfl
  have offSym : env.off x = env.off y →
      env.off (sortPair x y).2 = env.off (sortPair x y).1 := by
    intro hoff
    unfold sortPair
    split
    · exact hoff
    · exact hoff.symm
  refine ⟨case0, case1, ?_, ?_, ?_, ?_, ?_, ?_, ?_, ?_⟩
  · intro h1 h2
    rw [base _ _ (ladder_2_45 _ _ _ h1 h2),
      locale_xMinutes_plural _ (by omega) 0]
  · intro h1 h2
    rw [base _ _ (ladder_45_90 _ _ _ h1 h2)]
    rfl
  · intro h1 h2
    rw [base _ _ (ladder_90_1440 _ _ _ h1 h2),
      locale_aboutXHours_plural _ (by have := round_div60_ge_2 _ h1; omega) 0]
  · intro h1 h2
    rw [base _ _ (ladder_1440_2520 _ _ _ h1 h2)]
    rfl
  · intro h1 h2
    rw [base _ _ (ladder_2520_43200 _ _ _ h1 h2),
      locale_xDays_plural _ (by have := round_div1440_ge_2 _ h1; omega) 0]
  · intro h1 h2
    rw [base _ _ (ladder_43200_86400 _ _ _ h1 h2)]
  · intro hd hoff
    obtain ⟨hdelta, -⟩ := sortPair_delta x y 30000 (by norm_num) hd
    exact case1 (approxMinutes_delta30 env _ _ hdelta (offSym hoff))
  · intro hd hoff
    obtain ⟨hdelta, -⟩ := sortPair_delta x y 29000 (by norm_num) hd
    exact case0 (approxMinutes_delta29 env _ _ hdelta (offSym hoff))

/-- Fixed environment for concrete witnesses: UTC host (zero offsets), a
trivial calendar, no parsers needed. -/
def envUTC : Env :=
  { now := 0
    off := fun _ => 0
    diffMonths := fun _ _ => 0
    hostParse := fun _ => none
    isoParse := fun _ => none }

/-- C1 witness: at 30000 ms the formatter renders "1 minute" and the
120-minute point renders "about 2 hours". -/
theorem claim_C1_witness :
    formatDistance envUTC (.date (some 30000)) (.date (some 0)) {} =
      .ok "1 minute" ∧
    formatDistance envUTC (.date (some 7200000)) (.date (some 0)) {} =
      .ok "about 2 hours" := by
  constructor
  · exact (claim_C1 envUTC 30000 0 {} rfl rfl).2.2.2.2.2.2.2.2.1 (Or.inl rfl) rfl
  · have h := (claim_C1 envUTC 7200000 0 {} rfl rfl).2.2.2.2.1
    have hm : approxMinutesOf envUTC 7200000 0 = 120 := by
      unfold approxMinutesOf approxMinutes differenceInSeconds sortPair envUTC
      norm_num [jsTrunc, jsRound]
    rw [hm] at h
    have h2 := h (by norm_num) (by norm_num)
    rw [h2]
    have hj : jsRound ((120 : ℚ) / 60) = 2 := by norm_num [jsRound]
    rw [show ((120 : ℤ) : ℚ) = (120 : ℚ) by norm_num, hj]
    rfl

/-- C3: both formatter variants signal the Invalid-Input error exactly when
one of the two Instants is invalid; on two valid Instants no error is
raised. -/
theorem claim_C3 (env : Env) (a b : Option ℤ) (opts : FormatDistanceOptions)
    (sopts : StrictOptions) :
    ((∃ e, formatDistance env (.date a) (.date b) opts = .error e) ↔
      (a = none ∨ b = none)) ∧
    ((∃ e, formatDistanceStrict env (.date a) (.date b) sopts = .error e) ↔
      (a = none ∨ b = none)) := by
  cases a <;> cases b <;>
    simp [formatDistance, formatDistanceStrict, toDate]

/-- The plain (suffix-free) approximate magnitude text for an argument
pair. -/
def approxText (env : Env) (x y : ℤ) (includeSeconds : Bool) : String :=
  localeFormatDistance
    (approxLadder (differenceInSeconds (sortPair x y).2 (sortPair x y).1)
      (approxMinutesOf env x y) includeSeconds
      (env.diffMonths (sortPair x y).2 (sortPair x y).1)).1
    (approxLadder (differenceInSeconds (sortPair x y).2 (sortPair x y).1)
      (approxMinutesOf env x y) includeSeconds
      (env.diffMonths (sortPair x y).2 (sortPair x y).1)).2
    false 0

lemma locale_suffix_in (t : DistToken) (c cmp cmpPlain : ℤ) (h : 0 < cmp) :
    localeFormatDistance t c true cmp =
      "in " ++ localeFormatDistance t c false cmpPlain := by
  simp [localeFormatDistance, h]

lemma locale_suffix_ago (t : DistToken) (c cmp cmpPlain : ℤ) (h : ¬ 0 < cmp) :
    localeFormatDistance t c true cmp =
      localeFormatDistance t c false cmpPlain ++ " ago" := by
  simp [localeFormatDistance, h]

/-- C4 counterexample: at a 50-minute distance with the later Instant first,
`formatDistance` with `addSuffix` renders "in 50 minutes" (and "50 minutes
ago" with the earlier Instant first), the opposite of the claimed
orientation. -/
theorem claim_C4_counterexample :
    formatDistance envUTC (.date (some 1200000)) (.date (some 0))
      { addSuffix := true } = .ok "in 20 minutes" ∧
    formatDistance envUTC (.date (some 0)) (.date (some 1200000))
      { addSuffix := true } = .ok "20 minutes ago" := by
  constructor <;>
    · simp only [formatDistance, toDate, formatDistanceCore, sortPair,
        approxMinutes, differenceInSeconds, approxLadder, envUTC]
      norm_num [jsTrunc, jsRound]
      decide

/-- C4 amended: for valid Instants with `a` later than `b`, formatting
`(a, b)` with `addSuffix` produces "in X" and `(b, a)` produces "X ago" for
the same magnitude text `X` — the suffix wraps the token as "text ago" when
the captured direction sign `compare(first, second)` is ≤ 0 and as
"in text" when it is > 0. -/
theorem claim_C4_amended (env : Env) (a b : ℤ) (h : b < a)
    (opts : FormatDistanceOptions) (hsuf : opts.addSuffix = true) :
    formatDistance env (.date (some a)) (.date (some b)) opts =
      .ok ("in " ++ approxText env a b opts.includeSeconds) ∧
    formatDistance env (.date (some b)) (.date (some a)) opts =
      .ok (approxText env a b opts.includeSeconds ++ " ago") := by
  have hpair : sortPair b a = sortPair a b := by
    unfold sortPair
    rw [if_neg (show ¬ (b - a > 0) by omega), if_pos (show a - b > 0 by omega)]
  have hc1 : (if a - b < 0 then (-1 : ℤ) else if a - b > 0 then 1 else 0) = 1 := by
    have hna : ¬ (a - b < 0) := by omega
    have hpa : a - b > 0 := by omega
    rw [if_neg hna, if_pos hpa]
  have hc2 : (if b - a < 0 then (-1 : ℤ) else if b - a > 0 then 1 else 0) = -1 := by
    have hba : b - a < 0 := by omega
    rw [if_pos hba]
  constructor
  · rw [formatDistance_valid]
    unfold formatDistanceCore approxText approxMinutesOf
    rw [hsuf, hc1, locale_suffix_in _ _ _ 0 (by norm_num)]
  · rw [formatDistance_valid]
    unfold formatDistanceCore approxText approxMinutesOf
    rw [hsuf, hc2, locale_suffix_ago _ _ _ 0 (by norm_num), hpair]

/-- C4 witness: the amended orientation at the 50-minute pair. -/
theorem claim_C4_witness :
    formatDistance envUTC (.date (some 1200000)) (.date (some 0))
      { addSuffix := true } = .ok ("in " ++ approxText envUTC 1200000 0 false) ∧
    formatDistance envUTC (.date (some 0)) (.date (some 1200000))
      { addSuffix := true } =
      .ok (approxText envUTC 1200000 0 false ++ " ago") :=
  claim_C4_amended envUTC 1200000 0 (by norm_num) { addSuffix := true } rfl

/-- The locale token of a strict unit. -/
def strictUnitToken : StrictUnit → DistToken
  | .second => .xSeconds
  | .minute => .xMinutes
  | .hour => .xHours
  | .day => .xDays
  | .month => .xMonths
  | .year => .xYears

/-- Magnitude formula of the amended claim C2: the delta expressed in the
selected unit — raw milliseconds-based for second, minute and hour,
DST-corrected for day, month and year — fed to the rounding method. -/
def strictSpecMagnitude (env : Env) (lo hi : ℤ) (rm : ℚ → ℤ) :
    StrictUnit → ℤ
  | .second => rm (((hi - lo : ℤ) : ℚ) / 1000)
  | .minute => rm (rawMinutes lo hi)
  | .hour => rm (rawMinutes lo hi / 60)
  | .day => rm (dstMinutes env lo hi / 1440)
  | .month => rm (dstMinutes env lo hi / 43200)
  | .year => rm (dstMinutes env lo hi / 525600)

/-- Spec-side rendering of amended claim C2: auto-select the unit by the
minute thresholds, round the delta expressed in that unit (defaulting to
nearest-integer rounding), and re-express an auto-selected month count of
exactly 12 as one year. -/
def strictSpecAmended (env : Env) (x y : ℤ) (rmOpt : Option RoundingMethod) :
    String :=
  let lo := (sortPair x y).1
  let hi := (sortPair x y).2
  let rm := getRoundingMethod (some (rmOpt.getD .round))
  let unit := strictAutoUnit env lo hi
  let mag := strictSpecMagnitude env lo hi rm unit
  if unit = .month ∧ mag = 12 then localeFormatDistance .xYears 1 false 0
  else localeFormatDistance (strictUnitToken unit) mag false 0

/-- C2 amended: with no forced unit (and no suffix), strict formatting equals
the spec-side unit-selection/rounding formula, with the day, month and year
deltas DST-corrected and the 12-month special case re-expressed as one
year. -/
theorem claim_C2_amended (env : Env) (x y : ℤ) (opts : StrictOptions)
    (hu : opts.unit = none) (hsuf : opts.addSuffix = false) :
    formatDistanceStrict env (.date (some x)) (.date (some y)) opts =
      .ok (strictSpecAmended env x y opts.roundingMethod) := by
  rw [formatDistanceStrict_valid]
  simp only [formatDistanceStrictCore, strictSpecAmended, hu, hsuf,
    Option.getD_none]
  cases hua : strictAutoUnit env (sortPair x y).1 (sortPair x y).2
  case second =>
    simp only [hua, strictSpecMagnitude, strictUnitToken, reduceCtorEq,
      false_and, if_false]
    exact congrArg Except.ok (locale_noSuffix _ _ _ _)
  case minute =>
    simp only [hua, strictSpecMagnitude, strictUnitToken, reduceCtorEq,
      false_and, if_false]
    exact congrArg Except.ok (locale_noSuffix _ _ _ _)
  case hour =>
    simp only [hua, strictSpecMagnitude, strictUnitToken, reduceCtorEq,
      false_and, if_false]
    exact congrArg Except.ok (locale_noSuffix _ _ _ _)
  case day =>
    simp only [hua, strictSpecMagnitude, strictUnitToken, reduceCtorEq,
      false_and, if_false]
    exact congrArg Except.ok (locale_noSuffix _ _ _ _)
  case month =>
    simp only [hua, strictSpecMagnitude, strictUnitToken]
    by_cases h12 :
        getRoundingMethod (some (opts.roundingMethod.getD .round))
          (dstMinutes env (sortPair x y).1 (sortPair x y).2 / 43200) = 12 <;>
      simp [h12] <;>
      first
        | exact congrArg Except.ok (locale_noSuffix _ _ _ _)
        | exact locale_noSuffix _ _ _ _
  case year =>
    simp only [hua, strictSpecMagnitude, strictUnitToken, reduceCtorEq,
      false_and, if_false]
    exact congrArg Except.ok (locale_noSuffix _ _ _ _)

/-- C2 witness: a 90-second delta auto-selects the minute unit and rounds to
"2 minutes" via the spec-side formula. -/
theorem claim_C2_witness :
    formatDistanceStrict envUTC (.date (some 90000)) (.date (some 0)) {} =
      .ok (strictSpecAmended envUTC 90000 0 none) :=
  claim_C2_amended envUTC 90000 0 {} rfl rfl

/-- Environment with a one-hour UTC-offset change between the two endpoints
(a DST transition lies between them). -/
def envDST : Env :=
  { now := 0
    off := fun t => if t = 217800000 then 3600000 else 0
    diffMonths := fun _ _ => 0
    hostParse := fun _ => none
    isoParse := fun _ => none }

/-- C2 counterexample.  (1) Across a DST transition, a raw delta of 3630
minutes auto-selects the day unit and renders "2 days" although the raw
delta in days rounds to 3 — the day magnitude uses the DST-corrected delta,
not the raw one.  (2) A raw delta of exactly 360 days rounds to 12 months
but renders "1 year", not "12 months". -/
theorem claim_C2_counterexample :
    formatDistanceStrict envDST (.date (some 217800000)) (.date (some 0)) {} =
      .ok "2 days" ∧
    jsRound (rawMinutes 0 217800000 / 1440) = 3 ∧
    formatDistanceStrict envUTC (.date (some 31104000000)) (.date (some 0)) {} =
      .ok "1 year" ∧
    jsRound (dstMinutes envUTC 0 31104000000 / 43200) = 12 := by
  refine ⟨?_, ?_, ?_, ?_⟩
  · simp only [formatDistanceStrict, toDate, formatDistanceStrictCore,
      sortPair, strictAutoUnit, rawMinutes, dstMinutes, getRoundingMethod,
      envDST]
    norm_num [jsRound]
    decide
  · norm_num [jsRound, rawMinutes]
  · simp only [formatDistanceStrict, toDate, formatDistanceStrictCore,
      sortPair, strictAutoUnit, rawMinutes, dstMinutes, getRoundingMethod,
      envUTC]
    norm_num [jsRound]
    decide
  · norm_num [jsRound, dstMinutes, envUTC]

/-- C5: on a valid pair whose DST-corrected month count rounds to exactly 12
(default rounding), the auto-selected month unit renders "1 year", while
explicitly forcing the month unit on the same delta renders "12 months". -/
theorem claim_C5 (env : Env) (x y : ℤ)
    (hauto : strictAutoUnit env (sortPair x y).1 (sortPair x y).2 = .month)
    (h12 : jsRound (dstMinutes env (sortPair x y).1 (sortPair x y).2 / 43200) = 12) :
    formatDistanceStrict env (.date (some x)) (.date (some y))
      { addSuffix := false, unit := none, roundingMethod := none } =
      .ok "1 year" ∧
    formatDistanceStrict env (.date (some x)) (.date (some y))
      { addSuffix := false, unit := some .month, roundingMethod := none } =
      .ok "12 months" := by
  have hrm : getRoundingMethod (some RoundingMethod.round) = jsRound := rfl
  constructor
  · rw [formatDistanceStrict_valid]
    simp only [formatDistanceStrictCore, Option.getD_none, hauto, hrm, h12]
    rw [if_pos (show _ ∧ _ from ⟨trivial, by simp⟩)]
    rw [locale_noSuffix .xYears 1 _ 0]
    rfl
  · rw [formatDistanceStrict_valid]
    simp only [formatDistanceStrictCore, Option.getD_some, Option.getD_none,
      hrm, h12]
    rw [if_neg (by simp)]
    rw [locale_xMonths_plural 12 (by norm_num) _]
    rfl

/-- C5 witness: a delta of exactly 360 days (12 × 30-day months). -/
theorem claim_C5_witness :
    formatDistanceStrict envUTC (.date (some 31104000000)) (.date (some 0))
      { addSuffix := false, unit := none, roundingMethod := none } =
      .ok "1 year" ∧
    formatDistanceStrict envUTC (.date (some 31104000000)) (.date (some 0))
      { addSuffix := false, unit := some .month, roundingMethod := none } =
      .ok "12 months" :=
  claim_C5 envUTC 31104000000 0
    (by norm_num [strictAutoUnit, rawMinutes, dstMinutes, envUTC, sortPair])
    (by norm_num [jsRound, dstMinutes, envUTC, sortPair])

lemma renderTS_invalid (env : Env) (modifiers : List String) (c : CtrlState) :
    renderTS env modifiers c none =
      { c with log := c.log ++ ["Invalid time value"] } := by
  unfold renderTS
  split <;> rfl

/-- C6: a render on an invalid date catches the formatter error, appends it
to the diagnostic log, leaves the text content unchanged, and — at the tick
level — leaves the interval and live timers untouched, so the timer loop
survives and no error escapes (the handlers are total functions into the
state). -/
theorem claim_C6 (env : Env) (modifiers : List String) (s : Sys) (tid : ℕ)
    (t : Timer) (ht : s.timers.find? (fun u => u.id = tid) = some t)
    (hd : t.date = none) :
    renderTS env modifiers s.ctrl none =
      { s.ctrl with log := s.ctrl.log ++ ["Invalid time value"] } ∧
    onTick env modifiers s tid =
      { s with ctrl :=
        { s.ctrl with log := s.ctrl.log ++ ["Invalid time value"] } } := by
  refine ⟨renderTS_invalid env modifiers s.ctrl, ?_⟩
  unfold onTick
  rw [ht]
  dsimp only
  rw [hd, renderTS_invalid]

/-- C6 witness: a live timer that captured an unparseable date. -/
theorem claim_C6_witness :
    renderTS envUTC [] (CtrlState.mk "3 days ago" []) none =
      { CtrlState.mk "3 days ago" [] with
        log := [] ++ ["Invalid time value"] } ∧
    onTick envUTC [] (Sys.mk (CtrlState.mk "3 days ago" []) (some 0)
        [Timer.mk 0 30000 none] 1) 0 =
      { Sys.mk (CtrlState.mk "3 days ago" []) (some 0)
          [Timer.mk 0 30000 none] 1 with
        ctrl := { CtrlState.mk "3 days ago" [] with
          log := [] ++ ["Invalid time value"] } } :=
  claim_C6 envUTC []
    (Sys.mk (CtrlState.mk "3 days ago" []) (some 0) [Timer.mk 0 30000 none] 1)
    0 (Timer.mk 0 30000 none) (by decide) rfl

lemma filter_all_fail {α : Type} (p : α → Bool) :
    ∀ l : List α, (∀ a ∈ l, p a = false) → l.filter p = []
  | [], _ => rfl
  | a :: as, h => by
    have ha := h a (by simp)
    simp only [List.filter_cons, ha, Bool.false_eq_true, if_false]
    exact filter_all_fail p as fun b hb => h b (by simp [hb])

/-- After clearing, a well-formed binding has no live timers. -/
lemma sysInv_filter (s : Sys) (hinv : SysInv s) (tid : ℕ)
    (h : s.interval = some tid) :
    s.timers.filter (fun t => t.id ≠ tid) = [] := by
  apply filter_all_fail
  intro t htm
  have := (hinv.1 t htm).1
  rw [h] at this
  simp only [decide_eq_false_iff_not, ne_eq, Decidable.not_not]
  exact (Option.some.injEq _ _).mp this.symm

lemma sysInv_none_nil (s : Sys) (hinv : SysInv s) (h : s.interval = none) :
    s.timers = [] := by
  rcases hs : s.timers with _ | ⟨t, ts⟩
  · rfl
  · exfalso
    have := (hinv.1 t (by rw [hs]; simp)).1
    rw [h] at this
    exact Option.noConfusion this

/-- C7: one reactive re-evaluation cancels the pending timer, resolves the
value (strings through `parseISO`, failures surfacing as the logged
Invalid-Input error), renders immediately with the resolved value, and arms
exactly one fresh timer of period 30000 ms (5000 ms with the `seconds`
modifier) capturing that value; the invariant of at most one live timer is
re-established and a tick of the cancelled timer id is a no-op, so no stale
timer can fire after the new value is in place. -/
theorem claim_C7 (env : Env) (modifiers : List String) (s : Sys) (v : JSVal)
    (hinv : SysInv s) :
    (onEffect env modifiers s v).interval = some s.nextId ∧
    (onEffect env modifiers s v).timers =
      [⟨s.nextId, if modifiers.contains "seconds" then 5000 else 30000,
        resolveValue env v⟩] ∧
    (onEffect env modifiers s v).ctrl =
      renderTS env modifiers s.ctrl (resolveValue env v) ∧
    (onEffect env modifiers s v).nextId = s.nextId + 1 ∧
    SysInv (onEffect env modifiers s v) ∧
    (∀ tid, s.interval = some tid →
      onTick env modifiers (onEffect env modifiers s v) tid =
        onEffect env modifiers s v) ∧
    (∀ sv, v = .str sv → env.isoParse sv = none →
      (onEffect env modifiers s v).ctrl =
        { s.ctrl with log := s.ctrl.log ++ ["Invalid time value"] }) := by
  have hclear :
      (match s.interval with
        | some tid => { s with timers := s.timers.filter (fun t => t.id ≠ tid) }
        | none => s).timers = [] ∧
      (match s.interval with
        | some tid => { s with timers := s.timers.filter (fun t => t.id ≠ tid) }
        | none => s).ctrl = s.ctrl ∧
      (match s.interval with
        | some tid => { s with timers := s.timers.filter (fun t => t.id ≠ tid) }
        | none => s).nextId = s.nextId := by
    rcases hI : s.interval with _ | tid
    · exact ⟨sysInv_none_nil s hinv hI, rfl, rfl⟩
    · exact ⟨sysInv_filter s hinv tid hI, rfl, rfl⟩
  have heff : onEffect env modifiers s v =
      { ctrl := renderTS env modifiers s.ctrl (resolveValue env v)
        interval := some s.nextId
        timers := [⟨s.nextId,
          if modifiers.contains "seconds" then 5000 else 30000,
          resolveValue env v⟩]
        nextId := s.nextId + 1 } := by
    unfold onEffect
    rcases hI : s.interval with _ | tid
    · have h1 := sysInv_none_nil s hinv hI
      simp [hI, h1]
    · have h1 := sysInv_filter s hinv tid hI
      simp [hI, h1]
      intro a ham
      have := (hinv.1 a ham).1
      rw [hI] at this
      exact ((Option.some.injEq _ _).mp this).symm
  rw [heff]
  refine ⟨rfl, rfl, rfl, rfl, ?_, ?_, ?_⟩
  · refine ⟨?_, by simp, Or.inr ⟨s.nextId, rfl, by
      show s.nextId < s.nextId + 1
      omega⟩⟩
    intro t htm
    simp only [List.mem_singleton] at htm
    subst htm
    refine ⟨rfl, ?_⟩
    show s.nextId < s.nextId + 1
    omega
  · intro tid hI
    have htid : tid < s.nextId := by
      rcases hinv.2.2 with h | ⟨tid2, h2, hlt⟩
      · rw [hI] at h
        exact Option.noConfusion h
      · rw [hI] at h2
        rw [(Option.some.injEq _ _).mp h2]
        exact hlt
    unfold onTick
    have : List.find? (fun t => decide (t.id = tid))
        [(⟨s.nextId, if modifiers.contains "seconds" then 5000 else 30000,
          resolveValue env v⟩ : Timer)] = none := by
      simp only [List.find?_singleton]
      have : s.nextId ≠ tid := by omega
      simp [this]
    rw [this]
  · intro sv hv hparse
    subst hv
    simp only [resolveValue, hparse, renderTS_invalid]

/-- C7 witness: an initial binding receiving a numeric timestamp. -/
theorem claim_C7_witness :
    (onEffect envUTC [] (Sys.mk (CtrlState.mk "" []) none [] 0) (.num 1000)).interval =
      some 0 ∧
    (onEffect envUTC [] (Sys.mk (CtrlState.mk "" []) none [] 0) (.num 1000)).timers =
      [⟨0, 30000, some 1000⟩] ∧
    (onEffect envUTC [] (Sys.mk (CtrlState.mk "" []) none [] 0) (.num 1000)).ctrl =
      renderTS envUTC [] (CtrlState.mk "" []) (some 1000) ∧
    (onEffect envUTC [] (Sys.mk (CtrlState.mk "" []) none [] 0) (.num 1000)).nextId = 1 ∧
    SysInv (onEffect envUTC [] (Sys.mk (CtrlState.mk "" []) none [] 0) (.num 1000)) ∧
    (∀ tid, (none : Option ℕ) = some tid →
      onTick envUTC [] (onEffect envUTC [] (Sys.mk (CtrlState.mk "" []) none [] 0)
        (.num 1000)) tid =
      onEffect envUTC [] (Sys.mk (CtrlState.mk "" []) none [] 0) (.num 1000)) ∧
    (∀ sv, JSVal.num 1000 = .str sv → envUTC.isoParse sv = none →
      (onEffect envUTC [] (Sys.mk (CtrlState.mk "" []) none [] 0) (.num 1000)).ctrl =
        { CtrlState.mk "" [] with log := [] ++ ["Invalid time value"] }) :=
  claim_C7 envUTC [] (Sys.mk (CtrlState.mk "" []) none [] 0) (.num 1000)
    ⟨by simp, by simp, Or.inl rfl⟩

lemma renderApply_shape (s : VSys) (past : Bool) (res : Except String String) :
    (renderApply s past res).renders = s.renders + 1 ∧
    (renderApply s past res).interval = s.interval ∧
    (renderApply s past res).timers = s.timers ∧
    (renderApply s past res).nextId = s.nextId := by
  cases res <;> exact ⟨rfl, rfl, rfl, rfl⟩

lemma renderJS_shape (env : Env) (modifiers : List String) (s : VSys)
    (v : JSVal) :
    (renderJS env modifiers s v).renders = s.renders + 1 ∧
    (renderJS env modifiers s v).interval = s.interval ∧
    (renderJS env modifiers s v).timers = s.timers ∧
    (renderJS env modifiers s v).nextId = s.nextId := by
  unfold renderJS
  exact renderApply_shape s _ _

lemma onTickJS_nil (env : Env) (modifiers : List String) (s : VSys)
    (h : s.timers = []) (tid : ℕ) : onTickJS env modifiers s tid = s := by
  unfold onTickJS
  rw [h]
  rfl

/-- C9: hiding the element clears and forgets the interval, changes nothing
observable, and leaves no live timer, so subsequent ticks are no-ops (the
timer is fully suspended); on re-entering the viewport from the suspended
state the binding performs exactly one immediate render and re-arms one
timer of the modifier-determined period capturing the current value. -/
theorem claim_C9 (env : Env) (modifiers : List String) (s : VSys) (v : JSVal)
    (hinv : VSysInv s) :
    (onIntersection env modifiers s false v).interval = none ∧
    (onIntersection env modifiers s false v).timers = [] ∧
    (onIntersection env modifiers s false v).renders = s.renders ∧
    (onIntersection env modifiers s false v).textContent = s.textContent ∧
    (onIntersection env modifiers s false v).log = s.log ∧
    (∀ tid, onTickJS env modifiers (onIntersection env modifiers s false v) tid =
      onIntersection env modifiers s false v) ∧
    (s.interval = none →
      (onIntersection env modifiers s true v).renders = s.renders + 1 ∧
      (onIntersection env modifiers s true v).interval = some s.nextId ∧
      (onIntersection env modifiers s true v).timers =
        [⟨s.nextId, if modifiers.contains "seconds" then 5000 else 30000, v⟩]) := by
  have hhid : onIntersection env modifiers s false v =
      { s with timers := [], interval := none } := by
    unfold onIntersection
    rcases hI : s.interval with _ | tid
    · have h1 := hinv.2.2 hI
      simp only [Bool.false_eq_true, if_false]
      cases s
      simp_all
    · have hfil : s.timers.filter (fun t => t.id ≠ tid) = [] := by
        apply filter_all_fail
        intro t htm
        have := (hinv.1 t htm).1
        rw [hI] at this
        simp only [decide_eq_false_iff_not, ne_eq, Decidable.not_not]
        exact (Option.some.injEq _ _).mp this.symm
      simp only [Bool.false_eq_true, if_false]
      rw [hfil]
  rw [hhid]
  refine ⟨rfl, rfl, rfl, rfl, rfl, ?_, ?_⟩
  · intro tid
    exact onTickJS_nil env modifiers _ rfl tid
  · intro hI
    have hnil : s.timers = [] := hinv.2.2 hI
    have hvis : onIntersection env modifiers s true v =
        renderJS env modifiers (setupIntervalJS modifiers s v) v := by
      unfold onIntersection
      rw [hI]
      rfl
    rw [hvis]
    obtain ⟨hr, hi, ht, -⟩ := renderJS_shape env modifiers
      (setupIntervalJS modifiers s v) v
    refine ⟨?_, ?_, ?_⟩
    · rw [hr]
      rfl
    · rw [hi]
      rfl
    · rw [ht]
      show s.timers ++ [_] = _
      rw [hnil]
      rfl

/-- C9 witness: a suspended binding re-entering the viewport. -/
theorem claim_C9_witness :
    (onIntersection envUTC [] (VSys.mk "x" [] [] 3 none [] 5) false (.num 0)).interval =
      none ∧
    (onIntersection envUTC [] (VSys.mk "x" [] [] 3 none [] 5) false (.num 0)).timers =
      [] ∧
    (onIntersection envUTC [] (VSys.mk "x" [] [] 3 none [] 5) false (.num 0)).renders = 3 ∧
    (onIntersection envUTC [] (VSys.mk "x" [] [] 3 none [] 5) false (.num 0)).textContent =
      "x" ∧
    (onIntersection envUTC [] (VSys.mk "x" [] [] 3 none [] 5) false (.num 0)).log = [] ∧
    (∀ tid, onTickJS envUTC []
        (onIntersection envUTC [] (VSys.mk "x" [] [] 3 none [] 5) false (.num 0)) tid =
      onIntersection envUTC [] (VSys.mk "x" [] [] 3 none [] 5) false (.num 0)) ∧
    ((VSys.mk "x" [] [] 3 none [] 5).interval = none →
      (onIntersection envUTC [] (VSys.mk "x" [] [] 3 none [] 5) true (.num 0)).renders =
        3 + 1 ∧
      (onIntersection envUTC [] (VSys.mk "x" [] [] 3 none [] 5) true (.num 0)).interval =
        some 5 ∧
      (onIntersection envUTC [] (VSys.mk "x" [] [] 3 none [] 5) true (.num 0)).timers =
        [⟨5, 30000, .num 0⟩]) :=
  claim_C9 envUTC [] (VSys.mk "x" [] [] 3 none [] 5) (.num 0)
    ⟨by simp, by simp, fun _ => rfl⟩

/-- C8 counterexample: the src/index.ts `configure` replaces the previous
locale even when the supplied locale object lacks a `formatDistance` entry —
it is not a no-op there. -/
theorem claim_C8_counterexample :
    (configureTS (some (LocaleObj.mk false 7)) (some (LocaleObj.mk true 1))).1 =
      some (LocaleObj.mk false 7) ∧
    some (LocaleObj.mk false 7) ≠ some (LocaleObj.mk true 1) := by
  exact ⟨rfl, by decide⟩

/-- C8 amended: the validating variants (src/index.js, unnamed/part_002 and
the dist bundle) no-op and retain the previous locale when the supplied
locale lacks a `formatDistance` entry and replace it wholesale otherwise,
while the src/index.ts variant replaces the locale for any supplied locale
object; every variant returns the plugin registration function for
chaining. -/
theorem claim_C8_amended (cfg st : Option LocaleObj) (l : LocaleObj) :
    (l.hasFormatDistance = false → (configureJS (some l) st).1 = st) ∧
    (l.hasFormatDistance = true → (configureJS (some l) st).1 = some l) ∧
    (configureTS (some l) st).1 = some l ∧
    (configureJS cfg st).2 = .timeAgoFn ∧
    (configureTS cfg st).2 = .timeAgoFn := by
  refine ⟨?_, ?_, rfl, ?_, ?_⟩
  · intro h
    simp [configureJS, h]
  · intro h
    simp [configureJS, h]
  · cases cfg with
    | none => rfl
    | some l2 =>
      unfold configureJS
      split <;> rfl
  · cases cfg <;> rfl

/-- C8 witness: the validating variant on a malformed and on a valid locale,
and the TS variant on the malformed one. -/
theorem claim_C8_witness :
    (configureJS (some (LocaleObj.mk false 7)) (some (LocaleObj.mk true 1))).1 =
      some (LocaleObj.mk true 1) ∧
    (configureJS (some (LocaleObj.mk true 2)) (some (LocaleObj.mk true 1))).1 =
      some (LocaleObj.mk true 2) ∧
    (configureTS (some (LocaleObj.mk false 7)) (some (LocaleObj.mk true 1))).1 =
      some (LocaleObj.mk false 7) ∧
    (configureJS none (some (LocaleObj.mk true 1))).2 = .timeAgoFn ∧
    (configureTS none (some (LocaleObj.mk true 1))).2 = .timeAgoFn :=
  ⟨(claim_C8_amended none (some (LocaleObj.mk true 1)) (LocaleObj.mk false 7)).1 rfl,
    (claim_C8_amended none (some (LocaleObj.mk true 1)) (LocaleObj.mk true 2)).2.1 rfl,
    (claim_C8_amended none (some (LocaleObj.mk true 1)) (LocaleObj.mk false 7)).2.2.1,
    (claim_C8_amended none (some (LocaleObj.mk true 1)) (LocaleObj.mk false 7)).2.2.2.1,
    (claim_C8_amended none (some (LocaleObj.mk true 1)) (LocaleObj.mk false 7)).2.2.2.2⟩

/-- Host environment whose `Date` constructor parses one concrete valid
ISO-8601 string per ECMA-262 (2024-01-01T00:00:00.000Z, epoch-ms
1704067200000), with "now" two hours later. -/
def envHost : Env :=
  { now := 1704074400000
    off := fun _ => 0
    diffMonths := fun _ _ => 0
    hostParse := fun s =>
      if s = "2024-01-01T00:00:00.000Z" then some 1704067200000 else none
    isoParse := fun _ => none }

/-- C10 counterexample: the magic on a valid ISO-8601 string returns a label
("about 2 hours ago") instead of raising the Invalid-Input error — the
string is coerced through the host `Date` constructor by the vendored
`constructFrom`, not rejected. -/
theorem claim_C10_counterexample :
    magicTimeago envHost (.str "2024-01-01T00:00:00.000Z") none none none =
      .ok "about 2 hours ago" := by
  simp only [magicTimeago, formatDistanceToNow, formatDistance, toDate,
    formatDistanceCore, sortPair, approxMinutes, differenceInSeconds,
    approxLadder, envHost, Option.map_none, Option.getD_none, Option.getD]
  norm_num [jsTrunc, jsRound]
  decide

/-- C10 amended: the magic passes its argument to the formatter with no
`parseISO` call — strings resolve through the host `Date` parser (the
`new Date(value)` fallback of `constructFrom`), unlike the directive path,
which resolves strings through `parseISO`.  Hence a string the host cannot
parse raises the Invalid-Input error, while a host-parseable string (such
as a valid ISO-8601 string) is formatted as a label. -/
theorem claim_C10_amended (env : Env) (sv : String) (pure? seconds? : Option Bool)
    (hfail : env.hostParse sv = none) :
    magicTimeago env (.str sv) pure? seconds? none = .error "Invalid time value" ∧
    (∀ sv2 : String,
      magicTimeago env (.str sv2) pure? seconds? none =
        formatDistance env (.date (env.hostParse sv2)) (.date (some env.now))
          { addSuffix := !pure?.getD false
            includeSeconds := seconds?.getD false }) ∧
    resolveValue env (.str sv) = env.isoParse sv := by
  have hmain : ∀ sv2 : String,
      magicTimeago env (.str sv2) pure? seconds? none =
        formatDistance env (.date (env.hostParse sv2)) (.date (some env.now))
          { addSuffix := !pure?.getD false
            includeSeconds := seconds?.getD false } := by
    intro sv2
    unfold magicTimeago formatDistanceToNow
    simp only [Option.map_none, Option.getD_none, Bool.false_eq_true, if_false]
    unfold formatDistance toDate
    rfl
  refine ⟨?_, hmain, rfl⟩
  rw [hmain sv]
  unfold formatDistance toDate
  rw [hfail]

/-- C10 witness: an unparseable string raises the Invalid-Input error through
the magic. -/
theorem claim_C10_witness :
    magicTimeago envUTC (.str "not-a-date") none none none =
      .error "Invalid time value" ∧
    (∀ sv2 : String,
      magicTimeago envUTC (.str sv2) none none none =
        formatDistance envUTC (.date (envUTC.hostParse sv2)) (.date (some envUTC.now))
          { addSuffix := !(none : Option Bool).getD false
            includeSeconds := (none : Option Bool).getD false }) ∧
    resolveValue envUTC (.str "not-a-date") = envUTC.isoParse "not-a-date" :=
  claim_C10_amended envUTC "not-a-date" none none rfl
